import Mathlib

/-!
Formal model of the go-database repository (dexterdmonkey/go-database).

The repository is a configuration-and-connection shim around GORM: a
Config struct with two string renderers (config.go), a connection
factory with pool-size setters, and a severity-keyed logging adapter
(postgresql.go).  Every definition below is a direct transcription of
the corresponding Go declaration; external collaborators (gorm.Open,
(*gorm.DB).DB()) are modelled as an explicit World record of oracles,
and the side effects performed on them (the driver-handle setter calls)
are returned as an explicit call trace.
-/

namespace GoDatabase

/-- A value passed to a Go format verb: this repository only ever passes
strings (verb s) and ints (verb d) to fmt.Sprintf. -/
inductive GoVal where
  | str (s : String)
  | int (i : Int)
  deriving DecidableEq, Repr

/-- Rendering of one argument, as Go renders a string under verb s and an
int under verb d. -/
def GoVal.format : GoVal → String
  | .str s => s
  | .int i => toString i

/-- Character-level interpreter for the fmt.Sprintf calls of config.go:
verbs s and d consume one argument, every other character is literal.
Verb/argument mismatches cannot arise in this repository's calls; a
missing argument renders Go's MISSING marker. -/
def sprintfAux : List Char → List GoVal → String
  | [], _ => ""
  | '%' :: 's' :: rest, v :: vs => v.format ++ sprintfAux rest vs
  | '%' :: 'd' :: rest, v :: vs => v.format ++ sprintfAux rest vs
  | '%' :: 's' :: rest, [] => "%!s(MISSING)" ++ sprintfAux rest []
  | '%' :: 'd' :: rest, [] => "%!d(MISSING)" ++ sprintfAux rest []
  | c :: rest, vs => String.singleton c ++ sprintfAux rest vs

/-- fmt.Sprintf on a format string and an argument list. -/
def sprintf (fmt : String) (args : List GoVal) : String :=
  sprintfAux fmt.data args

/-- Config from config.go: configuration parameters for connecting to a
database.  Go int is modelled as Int (no arithmetic is performed on these
fields, so overflow cannot arise). -/
structure Config where
  Host : String
  Port : Int
  User : String
  Pass : String
  Name : String
  MaxConnectionPool : Int
  MinConnectionPool : Int
  Timezone : String
  deriving DecidableEq, Repr

/-- Config.DSN from config.go: the Data Source Name used for connecting
to the database, built by fmt.Sprintf. -/
def Config.DSN (cfg : Config) : String :=
  sprintf "user=%s password=%s dbname=%s port=%d host=%s sslmode=disable TimeZone=%s"
    [.str cfg.User, .str cfg.Pass, .str cfg.Name, .int cfg.Port, .str cfg.Host,
     .str cfg.Timezone]

/-- Config.String from config.go: the display form of the Config, built by
fmt.Sprintf. -/
def Config.String (cfg : Config) : String :=
  sprintf "user=%s password=%s dbname=%s port=%d host=%s min-pool=%d max-pool=%d"
    [.str cfg.User, .str cfg.Pass, .str cfg.Name, .int cfg.Port, .str cfg.Host,
     .int cfg.MinConnectionPool, .int cfg.MaxConnectionPool]

/-- The data of an appended string is the appended data. -/
lemma data_append (s t : String) : (s ++ t).data = s.data ++ t.data := rfl

/-- Evaluating the sprintf interpreter on the DSN format string yields the
right-nested concatenation of the fields. -/
lemma dsn_assoc (cfg : Config) :
    cfg.DSN = "user=" ++ (cfg.User ++ (" password=" ++ (cfg.Pass ++ (" dbname=" ++
      (cfg.Name ++ (" port=" ++ (toString cfg.Port ++ (" host=" ++ (cfg.Host ++
      (" sslmode=disable TimeZone=" ++ (cfg.Timezone ++ ""))))))))))) := rfl

/-- Evaluating the sprintf interpreter on the display format string yields
the right-nested concatenation of the fields. -/
lemma string_assoc (cfg : Config) :
    cfg.String = "user=" ++ (cfg.User ++ (" password=" ++ (cfg.Pass ++ (" dbname=" ++
      (cfg.Name ++ (" port=" ++ (toString cfg.Port ++ (" host=" ++ (cfg.Host ++
      (" min-pool=" ++ (toString cfg.MinConnectionPool ++ (" max-pool=" ++
      (toString cfg.MaxConnectionPool ++ ""))))))))))))) := rfl

/-- Evaluating the sprintf interpreter on the DSN format string yields the
literal concatenation of the fields. -/
lemma dsn_concat (cfg : Config) :
    cfg.DSN = "user=" ++ cfg.User ++ " password=" ++ cfg.Pass ++ " dbname=" ++ cfg.Name ++
      " port=" ++ toString cfg.Port ++ " host=" ++ cfg.Host ++
      " sslmode=disable TimeZone=" ++ cfg.Timezone := by
  rw [dsn_assoc]
  apply String.ext
  simp [data_append, List.append_assoc]

/-- Evaluating the sprintf interpreter on the display format string yields
the literal concatenation of the fields. -/
lemma string_concat (cfg : Config) :
    cfg.String = "user=" ++ cfg.User ++ " password=" ++ cfg.Pass ++ " dbname=" ++ cfg.Name ++
      " port=" ++ toString cfg.Port ++ " host=" ++ cfg.Host ++
      " min-pool=" ++ toString cfg.MinConnectionPool ++
      " max-pool=" ++ toString cfg.MaxConnectionPool := by
  rw [string_assoc]
  apply String.ext
  simp [data_append, List.append_assoc]

/-- C3: for every Config value, Config.DSN returns exactly the string
"user=(u) password=(p) dbname=(n) port=(port) host=(h) sslmode=disable
TimeZone=(tz)" with the placeholders replaced by the corresponding field
values. -/
theorem dsn_exact_format (cfg : Config) :
    cfg.DSN = "user=" ++ cfg.User ++ " password=" ++ cfg.Pass ++ " dbname=" ++ cfg.Name ++
      " port=" ++ toString cfg.Port ++ " host=" ++ cfg.Host ++
      " sslmode=disable TimeZone=" ++ cfg.Timezone :=
  dsn_concat cfg

/-- C4: for every Config value, Config.String returns exactly the string
"user=(u) password=(p) dbname=(n) port=(port) host=(h) min-pool=(min)
max-pool=(max)" with the placeholders replaced by the corresponding field
values, and the Pass field appears verbatim in the output of both
Config.String and Config.DSN. -/
theorem string_exact_format_password_plaintext (cfg : Config) :
    (cfg.String = "user=" ++ cfg.User ++ " password=" ++ cfg.Pass ++ " dbname=" ++ cfg.Name ++
      " port=" ++ toString cfg.Port ++ " host=" ++ cfg.Host ++
      " min-pool=" ++ toString cfg.MinConnectionPool ++
      " max-pool=" ++ toString cfg.MaxConnectionPool) ∧
    (∃ a b, cfg.String = a ++ (cfg.Pass ++ b)) ∧
    (∃ a b, cfg.DSN = a ++ (cfg.Pass ++ b)) := by
  refine ⟨string_concat cfg, ⟨"user=" ++ cfg.User ++ " password=",
    " dbname=" ++ cfg.Name ++ " port=" ++ toString cfg.Port ++ " host=" ++ cfg.Host ++
      " min-pool=" ++ toString cfg.MinConnectionPool ++
      " max-pool=" ++ toString cfg.MaxConnectionPool, ?_⟩,
    ⟨"user=" ++ cfg.User ++ " password=",
    " dbname=" ++ cfg.Name ++ " port=" ++ toString cfg.Port ++ " host=" ++ cfg.Host ++
      " sslmode=disable TimeZone=" ++ cfg.Timezone, ?_⟩⟩
  · rw [string_concat]
    apply String.ext
    simp [data_append, List.append_assoc]
  · rw [dsn_concat]
    apply String.ext
    simp [data_append, List.append_assoc]

/-- A concrete configuration. -/
def cfgA : Config :=
  { Host := "localhost", Port := 5432, User := "alice", Pass := "secret1",
    Name := "db", MaxConnectionPool := 10, MinConnectionPool := 2, Timezone := "UTC" }

/-- The same configuration with a different password. -/
def cfgB : Config := { cfgA with Pass := "secret2" }

/-- C5 counterexample: two Config values that differ only in the Pass field
produce different Config.String outputs, so the display string is not
redacted. -/
theorem string_not_redacted_cex :
    cfgA.Host = cfgB.Host ∧ cfgA.Port = cfgB.Port ∧ cfgA.User = cfgB.User ∧
    cfgA.Name = cfgB.Name ∧ cfgA.MaxConnectionPool = cfgB.MaxConnectionPool ∧
    cfgA.MinConnectionPool = cfgB.MinConnectionPool ∧ cfgA.Timezone = cfgB.Timezone ∧
    cfgA.Pass ≠ cfgB.Pass ∧ cfgA.String ≠ cfgB.String := by
  refine ⟨rfl, rfl, rfl, rfl, rfl, rfl, rfl, by decide, by decide⟩

/-- C5 (amended): Config.String is not redacted; the password occurs
verbatim in the output, so two Config values that differ only in the Pass
field render to equal display strings exactly when their passwords are
equal. -/
theorem string_pass_dependence (c1 c2 : Config)
    (hHost : c1.Host = c2.Host) (hPort : c1.Port = c2.Port) (hUser : c1.User = c2.User)
    (hName : c1.Name = c2.Name) (hMax : c1.MaxConnectionPool = c2.MaxConnectionPool)
    (hMin : c1.MinConnectionPool = c2.MinConnectionPool) (_hTz : c1.Timezone = c2.Timezone) :
    (c1.String = c2.String) ↔ c1.Pass = c2.Pass := by
  constructor
  · intro h
    rw [string_concat, string_concat, hHost, hPort, hUser, hName, hMax, hMin] at h
    have hd := congrArg String.data h
    simp only [data_append, List.append_assoc] at hd
    have h1 := List.append_cancel_left hd
    have h2 := List.append_cancel_left h1
    have h3 := List.append_cancel_right (List.append_cancel_left h2)
    exact String.ext h3
  · intro h
    rw [string_concat, string_concat, hHost, hPort, hUser, hName, hMax, hMin, h]

/-- C5 witness: the amended equivalence evaluated at the two concrete
configurations above. -/
theorem string_pass_dependence_witness :
    (cfgA.String = cfgB.String) ↔ cfgA.Pass = cfgB.Pass :=
  string_pass_dependence cfgA cfgB rfl rfl rfl rfl rfl rfl rfl

namespace time

/-- time.Millisecond from the Go standard library: a Duration is an int64
count of nanoseconds. -/
def Millisecond : Int := 1000000

end time

namespace logger

/-- gorm logger.LogLevel constants: Silent = 1, Error = 2, Warn = 3,
Info = 4 (iota + 1); the underlying Go type is int. -/
def Silent : Int := 1

/-- gorm logger.LogLevel Error. -/
def Error : Int := 2

/-- gorm logger.LogLevel Warn. -/
def Warn : Int := 3

/-- gorm logger.LogLevel Info. -/
def Info : Int := 4

/-- gorm logger.Config: the configuration record consumed by the adapter.
Field defaults are the Go zero values, applied when a composite literal
omits a field; SlowThreshold is a Duration in nanoseconds. -/
structure Config where
  SlowThreshold : Int := 0
  Colorful : Bool := false
  IgnoreRecordNotFoundError : Bool := false
  ParameterizedQueries : Bool := false
  LogLevel : Int := 0
  deriving DecidableEq, Repr

end logger

/-- dbLogger from postgresql.go: holds an embedded writer of arbitrary
type W, the embedded logger.Config, and six severity format strings. -/
structure dbLogger (W : Type) where
  Writer : W
  Config : logger.Config
  infoStr : String
  warnStr : String
  errStr : String
  traceStr : String
  traceWarnStr : String
  traceErrStr : String
  deriving DecidableEq, Repr

/-- Go field promotion of the embedded logger.Config: l.LogLevel reads
l.Config.LogLevel. -/
def dbLogger.LogLevel {W : Type} (l : dbLogger W) : Int :=
  l.Config.LogLevel

/-- Go field promotion of the embedded logger.Config: l.SlowThreshold
reads l.Config.SlowThreshold. -/
def dbLogger.SlowThreshold {W : Type} (l : dbLogger W) : Int :=
  l.Config.SlowThreshold

/-- NewLogger from postgresql.go: picks colorful or plain format strings
based on config.Colorful. -/
def NewLogger {W : Type} (writer : W) (config : logger.Config) : dbLogger W :=
  if config.Colorful then
    { Writer := writer
      Config := config
      infoStr := "\x1b[0m\x1b[32m[info] %s\x1b[0m"
      warnStr := "\x1b[0m\x1b[35m[warn] %s\x1b[0m"
      errStr := "\x1b[0m\x1b[31m[error] %s\x1b[0m"
      traceStr := "\x1b[33m[%.3fms] \x1b[34;1m[rows:%v]\x1b[0m %s"
      traceWarnStr := "\x1b[33m%s \x1b[0m\x1b[31;1m[%.3fms] \x1b[33m[rows:%v]\x1b[35m %s\x1b[0m"
      traceErrStr := "\x1b[35;1m%s \x1b[0m\x1b[33m[%.3fms] \x1b[34;1m[rows:%v]\x1b[0m %s" }
  else
    { Writer := writer
      Config := config
      infoStr := "[info] %s"
      warnStr := "[warn] %s"
      errStr := "[error] %s"
      traceStr := "[%.3fms] [rows:%v] %s"
      traceWarnStr := "%s [%.3fms] [rows:%v] %s"
      traceErrStr := "%s [%.3fms] [rows:%v] %s" }

/-- LogMode from postgresql.go: copies the logger value, replaces the
promoted LogLevel field of the copy, and returns the copy; the Go source
never writes through the receiver pointer, so the operation is pure. -/
def dbLogger.LogMode {W : Type} (l : dbLogger W) (level : Int) : dbLogger W :=
  { l with Config := { l.Config with LogLevel := level } }

/-- Info from postgresql.go: when enabled, calls
l.Printf(l.infoStr, fmt.Sprintf(msg, data...)).  The returned option is
the Printf invocation (format string and rendered argument); none means
nothing is written.  The unused context argument is omitted. -/
def dbLogger.Info {W : Type} (l : dbLogger W) (msg : String) (data : List GoVal) :
    Option (String × String) :=
  if l.LogLevel ≥ logger.Info then some (l.infoStr, sprintf msg data) else none

/-- Warn from postgresql.go, modelled like Info. -/
def dbLogger.Warn {W : Type} (l : dbLogger W) (msg : String) (data : List GoVal) :
    Option (String × String) :=
  if l.LogLevel ≥ logger.Warn then some (l.warnStr, sprintf msg data) else none

/-- Error from postgresql.go, modelled like Info. -/
def dbLogger.Error {W : Type} (l : dbLogger W) (msg : String) (data : List GoVal) :
    Option (String × String) :=
  if l.LogLevel ≥ logger.Error then some (l.errStr, sprintf msg data) else none

/-- The Printf invocation performed by one arm of Trace's switch.  The
three constructors record the three distinct Go argument lists:
(error, float, int, string) for the error arm, (string, float, int,
string) for the slow arm (the string "SLOW SQL >= %v" is represented by
its %v argument, the threshold), and (float, int, string) for the default
arm.  Elapsed time is recorded as the exact nanosecond count from which
Go computes the printed float64 milliseconds. -/
inductive TraceCall (E : Type) where
  | printfErr (fmt : String) (err : E) (elapsedNs rows : Int) (sql : String)
  | printfSlow (fmt : String) (thresholdNs : Int) (elapsedNs rows : Int) (sql : String)
  | printfInfo (fmt : String) (elapsedNs rows : Int) (sql : String)
  deriving DecidableEq

/-- Trace from postgresql.go.  time.Since(begin) is now - beginT with both
instants in nanoseconds; err is an Option over an arbitrary error type E;
fc is the lazy sql/rows callback, invoked only in the taken arm.  The
result is the Printf invocation performed, none when nothing is written.
The unused context argument is omitted. -/
def dbLogger.Trace {W E : Type} (l : dbLogger W) (now beginT : Int)
    (fc : Unit → String × Int) (err : Option E) : Option (TraceCall E) :=
  if l.LogLevel ≤ logger.Silent then none
  else
    let elapsed := now - beginT
    let slowOrDefault : Option (TraceCall E) :=
      if elapsed > l.SlowThreshold ∧ l.SlowThreshold ≠ 0 ∧ l.LogLevel ≥ logger.Warn then
        some (.printfSlow l.traceWarnStr l.SlowThreshold elapsed (fc ()).2 (fc ()).1)
      else if l.LogLevel = logger.Info then
        some (.printfInfo l.traceStr elapsed (fc ()).2 (fc ()).1)
      else none
    match err with
    | some e =>
        if l.LogLevel ≥ logger.Error then
          some (.printfErr l.traceErrStr e elapsed (fc ()).2 (fc ()).1)
        else slowOrDefault
    | none => slowOrDefault

/-- SetLogger from postgresql.go: builds the hard-coded logger.Config
(ParameterizedQueries is omitted in the Go composite literal and takes
its zero value) and installs NewLogger(writer, config) into db.dbLogger
and db.Logger; the returned value is that installed logger. -/
def PostgreSQL.SetLogger {W : Type} (writer : W) : dbLogger W :=
  NewLogger writer
    { SlowThreshold := 200 * time.Millisecond
      Colorful := true
      IgnoreRecordNotFoundError := false
      LogLevel := logger.Warn }

/-- C7: LogMode returns a new logger whose LogLevel is the requested
level while the writer, the rest of the configuration and all six format
strings are unchanged; replacing the level with the current level is the
identity, so nothing but the level is touched (the Go method copies the
receiver value and never mutates it). -/
theorem logMode_value_copy {W : Type} (l : dbLogger W) (level : Int) :
    (l.LogMode level).LogLevel = level ∧
    (l.LogMode level).Writer = l.Writer ∧
    (l.LogMode level).Config.SlowThreshold = l.Config.SlowThreshold ∧
    (l.LogMode level).Config.Colorful = l.Config.Colorful ∧
    (l.LogMode level).Config.IgnoreRecordNotFoundError = l.Config.IgnoreRecordNotFoundError ∧
    (l.LogMode level).Config.ParameterizedQueries = l.Config.ParameterizedQueries ∧
    (l.LogMode level).infoStr = l.infoStr ∧
    (l.LogMode level).warnStr = l.warnStr ∧
    (l.LogMode level).errStr = l.errStr ∧
    (l.LogMode level).traceStr = l.traceStr ∧
    (l.LogMode level).traceWarnStr = l.traceWarnStr ∧
    (l.LogMode level).traceErrStr = l.traceErrStr ∧
    l.LogMode l.LogLevel = l :=
  ⟨rfl, rfl, rfl, rfl, rfl, rfl, rfl, rfl, rfl, rfl, rfl, rfl, rfl⟩

/-- C10: for every writer, SetLogger installs a logger with the
hard-coded configuration: slow threshold 200 ms (200000000 ns),
colorful output, record-not-found errors not ignored, level Warn; the
caller-supplied writer is the only caller-controlled part. -/
theorem setLogger_hardcoded_config {W : Type} (writer : W) :
    (PostgreSQL.SetLogger writer).SlowThreshold = 200 * time.Millisecond ∧
    (PostgreSQL.SetLogger writer).SlowThreshold = 200000000 ∧
    (PostgreSQL.SetLogger writer).Config.Colorful = true ∧
    (PostgreSQL.SetLogger writer).Config.IgnoreRecordNotFoundError = false ∧
    (PostgreSQL.SetLogger writer).Config.ParameterizedQueries = false ∧
    (PostgreSQL.SetLogger writer).LogLevel = logger.Warn ∧
    (PostgreSQL.SetLogger writer).Writer = writer :=
  ⟨rfl, rfl, rfl, rfl, rfl, rfl, rfl⟩

/-- C9: the severity methods are gated by the current log level, and a
silent-or-below level suppresses Trace entirely. -/
theorem severity_gating {W E : Type} (l : dbLogger W) (msg : String) (data : List GoVal)
    (now beginT : Int) (fc : Unit → String × Int) (err : Option E) :
    ((l.Info msg data).isSome = true ↔ l.LogLevel ≥ logger.Info) ∧
    ((l.Warn msg data).isSome = true ↔ l.LogLevel ≥ logger.Warn) ∧
    ((l.Error msg data).isSome = true ↔ l.LogLevel ≥ logger.Error) ∧
    (l.LogLevel ≤ logger.Silent → l.Trace now beginT fc err = none) := by
  refine ⟨?_, ?_, ?_, ?_⟩
  · unfold dbLogger.Info
    split <;> simp_all
  · unfold dbLogger.Warn
    split <;> simp_all
  · unfold dbLogger.Error
    split <;> simp_all
  · intro h
    unfold dbLogger.Trace
    simp [h]

/-- A concrete silent logger over the unit writer. -/
def lSilent : dbLogger Unit :=
  NewLogger () { SlowThreshold := 0, Colorful := false, IgnoreRecordNotFoundError := false,
                 ParameterizedQueries := false, LogLevel := logger.Silent }

/-- C9 witness: the gating equivalences at a concrete silent logger, with
the Trace-suppression hypothesis discharged concretely. -/
theorem severity_gating_witness :
    ((lSilent.Info "m" []).isSome = true ↔ lSilent.LogLevel ≥ logger.Info) ∧
    ((lSilent.Warn "m" []).isSome = true ↔ lSilent.LogLevel ≥ logger.Warn) ∧
    ((lSilent.Error "m" []).isSome = true ↔ lSilent.LogLevel ≥ logger.Error) ∧
    lSilent.Trace 1 0 (fun _ => ("q", 0)) (some "boom") = none := by
  have h := severity_gating lSilent "m" [] 1 0 (fun _ => ("q", 0)) (some "boom")
  exact ⟨h.1, h.2.1, h.2.2.1, h.2.2.2 (by decide)⟩

/-- A concrete colorful Warn-level logger with a 200 ns slow threshold. -/
def lWarnColor : dbLogger Unit :=
  NewLogger () { SlowThreshold := 200, Colorful := true, IgnoreRecordNotFoundError := false,
                 ParameterizedQueries := false, LogLevel := logger.Warn }

/-- C2 counterexample: with no error, a nonzero SlowThreshold and elapsed
time not exceeding it, the claim requires the default trace format, but
at log level Warn the code performs no Printf at all: the selection also
depends on the log level, which the claim omits. -/
theorem trace_default_case_cex :
    lWarnColor.SlowThreshold ≠ 0 ∧
    ((1 : Int) - 0 ≤ lWarnColor.SlowThreshold) ∧
    lWarnColor.Trace 1 0 (fun _ => ("q", 1)) (none : Option String) = none :=
  ⟨by decide, by decide, rfl⟩

/-- C2 (amended): Trace performs the error-format Printf exactly when the
error is non-nil and the log level is at least Error; the slow-format
Printf exactly when the error arm is not taken, elapsed time exceeds the
nonzero SlowThreshold and the log level is at least Warn; and the
default-format Printf exactly when neither earlier arm is taken and the
log level equals Info. -/
theorem trace_branch_selection {W E : Type} (l : dbLogger W) (now beginT : Int)
    (fc : Unit → String × Int) (err : Option E) :
    ((∃ e, l.Trace now beginT fc err =
        some (TraceCall.printfErr l.traceErrStr e (now - beginT) (fc ()).2 (fc ()).1)) ↔
      (err ≠ none ∧ l.LogLevel ≥ logger.Error)) ∧
    ((l.Trace now beginT fc err =
        some (TraceCall.printfSlow l.traceWarnStr l.SlowThreshold (now - beginT)
          (fc ()).2 (fc ()).1)) ↔
      (¬ (err ≠ none ∧ l.LogLevel ≥ logger.Error) ∧
        (now - beginT > l.SlowThreshold ∧ l.SlowThreshold ≠ 0 ∧ l.LogLevel ≥ logger.Warn))) ∧
    ((l.Trace now beginT fc err =
        some (TraceCall.printfInfo l.traceStr (now - beginT) (fc ()).2 (fc ()).1)) ↔
      (¬ (err ≠ none ∧ l.LogLevel ≥ logger.Error) ∧
        ¬ (now - beginT > l.SlowThreshold ∧ l.SlowThreshold ≠ 0 ∧ l.LogLevel ≥ logger.Warn) ∧
        l.LogLevel = logger.Info)) := by
  rcases err with _ | e <;>
    simp only [dbLogger.Trace] <;>
    split_ifs <;>
    simp_all [logger.Silent, logger.Error, logger.Warn, logger.Info, dbLogger.LogLevel,
      dbLogger.SlowThreshold] <;>
    omega

/-- Opaque handle to a gorm.DB connection as returned by gorm.Open. -/
structure GormDB where
  id : Nat
  deriving DecidableEq, Repr

/-- Opaque handle to the database/sql DB returned by (*gorm.DB).DB(). -/
structure SqlDB where
  id : Nat
  deriving DecidableEq, Repr

/-- Oracles for the two fallible external calls this repository makes:
gorm.Open (keyed by the DSN it receives) and the driver-handle retrieval
(*gorm.DB).DB().  Go returns (value, error) pairs; Except captures the
same disjunction. -/
structure World where
  openDB : String → Except String GormDB
  getSqlDB : GormDB → Except String SqlDB

/-- An observable call performed against the external libraries: the
gorm.Open call with the DSN and PreferSimpleProtocol flag it receives,
and the two driver-handle pool setters. -/
inductive DBCall where
  | gormOpen (dsn : String) (preferSimpleProtocol : Bool)
  | setMaxOpenConns (n : Int)
  | setMaxIdleConns (n : Int)
  deriving DecidableEq, Repr

/-- PostgreSQL from postgresql.go: wraps the gorm.DB handle.  The
embedded dbLogger pointer is installed separately by SetLogger and plays
no part in the factory or the pool setters. -/
structure PostgreSQL where
  DB : GormDB
  deriving DecidableEq, Repr

/-- SetMaxConnectionPool from postgresql.go: retrieves the sql.DB handle
via db.DB.DB(); on failure returns the underlying error wrapped with the
static text "failed to get sql db; " and performs no setter call; on
success calls SetMaxOpenConns(n) and returns nil.  The second component
is the list of driver-handle calls performed. -/
def PostgreSQL.SetMaxConnectionPool (db : PostgreSQL) (w : World) (n : Int) :
    Except String Unit × List DBCall :=
  match w.getSqlDB db.DB with
  | .error e => (.error ("failed to get sql db; " ++ e), [])
  | .ok _ => (.ok (), [DBCall.setMaxOpenConns n])

/-- SetMinConnectionPool from postgresql.go: same shape as
SetMaxConnectionPool but calls SetMaxIdleConns(n) on success. -/
def PostgreSQL.SetMinConnectionPool (db : PostgreSQL) (w : World) (n : Int) :
    Except String Unit × List DBCall :=
  match w.getSqlDB db.DB with
  | .error e => (.error ("failed to get sql db; " ++ e), [])
  | .ok _ => (.ok (), [DBCall.setMaxIdleConns n])

/-- The timezone-defaulting statement at the top of CreatePostgreSQL:
an empty Timezone is replaced by "Asia/Jakarta" before the DSN is
built. -/
def defaultTimezone (cfg : Config) : Config :=
  if cfg.Timezone = "" then { cfg with Timezone := "Asia/Jakarta" } else cfg

/-- CreatePostgreSQL from postgresql.go.  The Go function receives *cfg
and mutates its Timezone field; the model returns the final Config as
the second component.  The third component is the trace of external
calls: the gorm.Open invocation (with the DSN it was passed and
PreferSimpleProtocol = true) followed by the driver-handle setter calls.
Note the guard: SetMaxConnectionPool is invoked only when
cfg.MaxConnectionPool <= 0; SetMinConnectionPool is always invoked. -/
def CreatePostgreSQL (w : World) (cfg0 : Config) :
    Except String PostgreSQL × Config × List DBCall :=
  let cfg := defaultTimezone cfg0
  match w.openDB cfg.DSN with
  | .error e =>
      (.error ("failed to connect database; " ++ e), cfg, [DBCall.gormOpen cfg.DSN true])
  | .ok gormDB =>
      let db : PostgreSQL := { DB := gormDB }
      if cfg.MaxConnectionPool ≤ 0 then
        match db.SetMaxConnectionPool w cfg.MaxConnectionPool with
        | (.error e, cs) => (.error e, cfg, DBCall.gormOpen cfg.DSN true :: cs)
        | (.ok _, cs1) =>
            match db.SetMinConnectionPool w cfg.MinConnectionPool with
            | (.error e, cs2) => (.error e, cfg, DBCall.gormOpen cfg.DSN true :: (cs1 ++ cs2))
            | (.ok _, cs2) => (.ok db, cfg, DBCall.gormOpen cfg.DSN true :: (cs1 ++ cs2))
      else
        match db.SetMinConnectionPool w cfg.MinConnectionPool with
        | (.error e, cs2) => (.error e, cfg, DBCall.gormOpen cfg.DSN true :: cs2)
        | (.ok _, cs2) => (.ok db, cfg, DBCall.gormOpen cfg.DSN true :: cs2)

/-- On every path of CreatePostgreSQL the final Config is the
timezone-defaulted input and the first external call is gorm.Open on
that Config's DSN. -/
lemma createPostgreSQL_cfg_head (w : World) (cfg : Config) :
    (CreatePostgreSQL w cfg).2.1 = defaultTimezone cfg ∧
    (CreatePostgreSQL w cfg).2.2.head? =
      some (DBCall.gormOpen (defaultTimezone cfg).DSN true) := by
  unfold CreatePostgreSQL
  rcases ho : w.openDB (defaultTimezone cfg).DSN with e | g
  · simp [ho]
  · rcases hg : w.getSqlDB g with e2 | s2 <;>
      by_cases hmp : (defaultTimezone cfg).MaxConnectionPool ≤ 0 <;>
      simp [ho, hg, hmp, PostgreSQL.SetMaxConnectionPool, PostgreSQL.SetMinConnectionPool]

/-- C8: both pool setters return an error exactly when retrieving the
driver handle fails; that error is the underlying error wrapped with the
static prefix "failed to get sql db; ", and on the error path no setter
call is performed, while on the success path exactly the one configured
setter call is performed. -/
theorem pool_setters_error_behavior (w : World) (db : PostgreSQL) (n m : Int) :
    (∀ e, w.getSqlDB db.DB = Except.error e →
      db.SetMaxConnectionPool w n = (Except.error ("failed to get sql db; " ++ e), []) ∧
      db.SetMinConnectionPool w m = (Except.error ("failed to get sql db; " ++ e), [])) ∧
    (∀ s, w.getSqlDB db.DB = Except.ok s →
      db.SetMaxConnectionPool w n = (Except.ok (), [DBCall.setMaxOpenConns n]) ∧
      db.SetMinConnectionPool w m = (Except.ok (), [DBCall.setMaxIdleConns m])) := by
  constructor
  · intro e he
    simp [PostgreSQL.SetMaxConnectionPool, PostgreSQL.SetMinConnectionPool, he]
  · intro s hs
    simp [PostgreSQL.SetMaxConnectionPool, PostgreSQL.SetMinConnectionPool, hs]

/-- A concrete gorm handle. -/
def gdb0 : GormDB := ⟨0⟩

/-- A concrete sql handle. -/
def sdb0 : SqlDB := ⟨0⟩

/-- A world in which both external calls succeed. -/
def wOk : World := { openDB := fun _ => .ok gdb0, getSqlDB := fun _ => .ok sdb0 }

/-- A world in which connecting succeeds but the driver handle cannot be
retrieved. -/
def wNoHandle : World :=
  { openDB := fun _ => .ok gdb0, getSqlDB := fun _ => .error "sql: database is closed" }

/-- A PostgreSQL value over the concrete gorm handle. -/
def pg0 : PostgreSQL := { DB := gdb0 }

/-- C8 witness: both branches of the setter characterisation evaluated at
concrete worlds. -/
theorem pool_setters_error_behavior_witness :
    (pg0.SetMaxConnectionPool wNoHandle 7 =
        (Except.error "failed to get sql db; sql: database is closed", []) ∧
      pg0.SetMinConnectionPool wNoHandle 3 =
        (Except.error "failed to get sql db; sql: database is closed", [])) ∧
    (pg0.SetMaxConnectionPool wOk 7 = (Except.ok (), [DBCall.setMaxOpenConns 7]) ∧
      pg0.SetMinConnectionPool wOk 3 = (Except.ok (), [DBCall.setMaxIdleConns 3])) :=
  ⟨(pool_setters_error_behavior wNoHandle pg0 7 3).1 "sql: database is closed" rfl,
   (pool_setters_error_behavior wOk pg0 7 3).2 sdb0 rfl⟩

/-- C6: an empty Timezone is replaced by "Asia/Jakarta" before the DSN is
built, so the DSN handed to gorm.Open carries the default (it ends with
"TimeZone=Asia/Jakarta"); a non-empty Timezone leaves the Config
untouched. -/
theorem createPostgreSQL_timezone_default (w : World) (cfg : Config) :
    (cfg.Timezone = "" →
      (CreatePostgreSQL w cfg).2.1 = { cfg with Timezone := "Asia/Jakarta" } ∧
      (CreatePostgreSQL w cfg).2.2.head? =
        some (DBCall.gormOpen ({ cfg with Timezone := "Asia/Jakarta" } : Config).DSN true) ∧
      ∃ pre, ({ cfg with Timezone := "Asia/Jakarta" } : Config).DSN.data =
        pre ++ ("TimeZone=Asia/Jakarta" : String).data) ∧
    (cfg.Timezone ≠ "" →
      (CreatePostgreSQL w cfg).2.1 = cfg ∧
      (CreatePostgreSQL w cfg).2.2.head? = some (DBCall.gormOpen cfg.DSN true)) := by
  have hch := createPostgreSQL_cfg_head w cfg
  constructor
  · intro h
    have hdz : defaultTimezone cfg = { cfg with Timezone := "Asia/Jakarta" } := by
      simp [defaultTimezone, h]
    refine ⟨hch.1.trans hdz, hch.2.trans (by rw [hdz]), ?_⟩
    have hsplit1 : (" sslmode=disable TimeZone=" : String).data =
        (" sslmode=disable " : String).data ++ ("TimeZone=" : String).data := rfl
    have hsplit2 : ("TimeZone=Asia/Jakarta" : String).data =
        ("TimeZone=" : String).data ++ ("Asia/Jakarta" : String).data := rfl
    refine ⟨(("user=" : String) ++ cfg.User ++ " password=" ++ cfg.Pass ++ " dbname=" ++
      cfg.Name ++ " port=" ++ toString cfg.Port ++ " host=" ++ cfg.Host ++
      " sslmode=disable ").data, ?_⟩
    rw [dsn_concat]
    simp [data_append, List.append_assoc, hsplit1, hsplit2]
  · intro h
    have hdz : defaultTimezone cfg = cfg := by
      simp [defaultTimezone, h]
    exact ⟨hch.1.trans hdz, hch.2.trans (by rw [hdz])⟩

/-- A configuration with no timezone set. -/
def cfgNoTz : Config :=
  { Host := "h", Port := 1, User := "u", Pass := "p", Name := "n",
    MaxConnectionPool := 0, MinConnectionPool := 0, Timezone := "" }

/-- The configuration from the package README example. -/
def cfgReadme : Config :=
  { Host := "localhost", Port := 5432, User := "username", Pass := "password",
    Name := "dbname", MaxConnectionPool := 20, MinConnectionPool := 5,
    Timezone := "Asia/Jakarta" }

/-- C6 witness: the defaulting branch at a concrete empty-timezone
configuration and the untouched branch at the README configuration. -/
theorem createPostgreSQL_timezone_default_witness :
    ((CreatePostgreSQL wOk cfgNoTz).2.1 = { cfgNoTz with Timezone := "Asia/Jakarta" } ∧
      (CreatePostgreSQL wOk cfgNoTz).2.2.head? =
        some (DBCall.gormOpen ({ cfgNoTz with Timezone := "Asia/Jakarta" } : Config).DSN true) ∧
      ∃ pre, ({ cfgNoTz with Timezone := "Asia/Jakarta" } : Config).DSN.data =
        pre ++ ("TimeZone=Asia/Jakarta" : String).data) ∧
    ((CreatePostgreSQL wOk cfgReadme).2.1 = cfgReadme ∧
      (CreatePostgreSQL wOk cfgReadme).2.2.head? =
        some (DBCall.gormOpen cfgReadme.DSN true)) :=
  ⟨(createPostgreSQL_timezone_default wOk cfgNoTz).1 rfl,
   (createPostgreSQL_timezone_default wOk cfgReadme).2 (by decide)⟩

set_option maxRecDepth 8192 in
/-- C1 evaluation at the failing input: with the README configuration
(MaxConnectionPool = 20) and every external call succeeding,
CreatePostgreSQL succeeds, yet the call trace contains no
SetMaxOpenConns call: the guard in CreatePostgreSQL invokes
SetMaxConnectionPool only when MaxConnectionPool <= 0, so a positive
configured cap is never applied to the driver handle. -/
theorem createPostgreSQL_skips_positive_max_pool :
    cfgReadme.MaxConnectionPool = 20 ∧
    (CreatePostgreSQL wOk cfgReadme).1 = Except.ok { DB := gdb0 } ∧
    (CreatePostgreSQL wOk cfgReadme).2.2 =
      [DBCall.gormOpen
        "user=username password=password dbname=dbname port=5432 host=localhost sslmode=disable TimeZone=Asia/Jakarta"
        true,
       DBCall.setMaxIdleConns 5] :=
  ⟨rfl, rfl, rfl⟩

end GoDatabase
